import Mathlib

/-!
Verification of the intent-extraction, task-resolution and task-mutation
logic of the AI-powered todo backend
(`backend/app/agents/tools.py`, `backend/app/services/task_service.py`,
`backend/app/models/task.py`), as a shallow embedding in Lean.

Strings are Lean `String`s; Python's `in` (substring test), `str.lower`,
`str.strip()`, `str.rstrip('.,!?')`, `str.index`/slicing and
`sep.join(...)` are modelled character-wise below.  Database state is an
explicit record of task rows and share rows; timestamps, a generated id,
the stdlib UUID parser and `datetime.fromisoformat` are passed in as
explicit parameters, since the pure logic under verification does not
depend on their internals.
-/

namespace Todo

/-- Character-wise lower-casing, modelling Python `str.lower()` on the
ASCII texts handled by the parser. -/
def pyLower (s : String) : String :=
  String.mk (s.data.map Char.toLower)

/-- First index at which `p` occurs as a contiguous run inside `t`;
models Python `str.index` / the `in` operator on the character level. -/
def findSub (p : List Char) : List Char → Option Nat
  | [] => if List.isPrefixOf p [] then some 0 else none
  | c :: rest =>
    if List.isPrefixOf p (c :: rest) then some 0
    else (findSub p rest).map (· + 1)

/-- Python `needle in hay` for strings. -/
def pyContains (hay needle : String) : Bool :=
  (findSub needle.data hay.data).isSome

/-- Python `str.strip()` (whitespace from both ends). -/
def pyStrip (s : String) : String :=
  String.mk (((s.data.dropWhile Char.isWhitespace).reverse.dropWhile Char.isWhitespace).reverse)

/-- Python `str.rstrip('.,!?')`. -/
def pyRstripPunct (s : String) : String :=
  String.mk ((s.data.reverse.dropWhile (fun c => c = '.' ∨ c = ',' ∨ c = '!' ∨ c = '?')).reverse)

/-- Python `sep.join(parts)`. -/
def pyJoin (sep : String) : List String → String
  | [] => ""
  | [s] => s
  | s :: rest => s ++ sep ++ pyJoin sep rest

/-- Python `str.replace('Z', '+00:00')`, used on deadline strings before
`datetime.fromisoformat`. -/
def replaceZChars : List Char → List Char
  | [] => []
  | c :: rest => (if c = 'Z' then "+00:00".data else [c]) ++ replaceZChars rest

def replaceZ (s : String) : String :=
  String.mk (replaceZChars s.data)

/-- Python truthiness of an `Optional[str]` argument: falsy iff it is
`None` or the empty string. -/
def pyTruthy : Option String → Bool
  | none => false
  | some s => !(s == "")

/-- `_parse_status_from_query` (tools.py lines 97-113): extract a status
intent from a natural-language query. -/
def parse_status_from_query (query : String) : Option String :=
  let queryLower := pyLower query
  if ["complete", "done", "finished", "mark as done", "mark complete"].any
      (fun word => pyContains queryLower word) then
    some "completed"
  else if ["start", "in progress", "started", "working", "mark in progress"].any
      (fun word => pyContains queryLower word) then
    some "in_progress"
  else if ["pending", "mark as pending", "not done", "reopen"].any
      (fun word => pyContains queryLower word) then
    some "pending"
  else
    none

/-- One trigger-pattern step of `_parse_title_from_query`: if `pattern`
occurs in the lower-cased query, take the original-case text after its
first occurrence, strip whitespace, strip trailing `.,!?`, and keep the
result if nonempty.  (The Python loop body for a single `pattern`.) -/
def tryPattern (pattern query : String) : Option String :=
  match findSub pattern.data (pyLower query).data with
  | none => none
  | some idx =>
    let newTitle := pyRstripPunct (pyStrip (String.mk (query.data.drop (idx + pattern.data.length))))
    if newTitle == "" then none else some newTitle

/-- `_parse_title_from_query` (tools.py lines 116-148): extract a new
title from a natural-language query.  Mirrors the source exactly: each
`if` block only returns when it produced a nonempty stripped title, so
control falls through to the later trigger groups otherwise. -/
def parse_title_from_query (query : String) : Option String :=
  let queryLower := pyLower query
  let r1 :=
    if pyContains queryLower "rename to" || pyContains queryLower "retitle to" then
      (tryPattern "rename to " query).orElse (fun _ => tryPattern "retitle to " query)
    else none
  let r2 :=
    if pyContains queryLower "change title to" then
      tryPattern "change title to" query
    else none
  let r3 :=
    if pyContains queryLower "name it" || pyContains queryLower "call it" then
      (tryPattern "name it " query).orElse (fun _ => tryPattern "call it " query)
    else none
  (r1.orElse (fun _ => r2)).orElse (fun _ => r3)

/-- `TaskStatus` enum (models/task.py lines 15-19). -/
inductive TaskStatus where
  | pending
  | in_progress
  | completed
deriving DecidableEq, Repr

/-- The `TaskStatus(value)` enum constructor: succeeds exactly on the
three member values, models the `ValueError` branch by `none`. -/
def TaskStatus.ofString : String → Option TaskStatus
  | "pending" => some .pending
  | "in_progress" => some .in_progress
  | "completed" => some .completed
  | _ => none

/-- `TaskPriority` enum (models/task.py lines 22-27). -/
inductive TaskPriority where
  | low
  | medium
  | high
  | urgent
deriving DecidableEq, Repr

/-- The `TaskPriority(value)` enum constructor. -/
def TaskPriority.ofString : String → Option TaskPriority
  | "low" => some .low
  | "medium" => some .medium
  | "high" => some .high
  | "urgent" => some .urgent
  | _ => none

/-- A row of the `tasks` table (models/task.py).  Ids and timestamps are
opaque numbers; the AI-suggestion columns are omitted because the code
paths under verification never read or write them. -/
structure Task where
  id : Nat
  ownerId : Nat
  title : String
  description : Option String := none
  status : TaskStatus := .pending
  priority : TaskPriority := .medium
  deadline : Option Nat := none
  completedAt : Option Nat := none
  createdAt : Nat := 0
  updatedAt : Nat := 0
deriving DecidableEq, Repr

/-- Database state: the task rows and the `task_shares` rows
(`(task_id, user_id)` pairs). -/
structure DB where
  tasks : List Task
  shares : List (Nat × Nat) := []
deriving DecidableEq, Repr

/-- `ORDER BY created_at DESC`. -/
def createdDesc (a b : Task) : Prop := b.createdAt ≤ a.createdAt

instance : DecidableRel createdDesc := fun a b =>
  inferInstanceAs (Decidable (b.createdAt ≤ a.createdAt))

instance : IsTotal Task createdDesc :=
  ⟨fun a b => Nat.le_total b.createdAt a.createdAt⟩

instance : IsTrans Task createdDesc :=
  ⟨fun _ _ _ h1 h2 => Nat.le_trans h2 h1⟩

/-- Replace the first list element satisfying `p`; models committing an
in-place mutation of the row returned by `.first()`. -/
def replaceFirst (p : α → Bool) (new : α) : List α → List α
  | [] => []
  | x :: rest => if p x then new :: rest else x :: replaceFirst p new rest

/-- `can_access_task` (task_service.py lines 210-241): owner or holder
of a share row. -/
def can_access_task (db : DB) (taskId userId : Nat) : Bool :=
  match db.tasks.find? (fun t => t.id == taskId) with
  | none => false
  | some task =>
    task.ownerId == userId || (db.shares.find? (fun s => s.1 == taskId && s.2 == userId)).isSome

/-- `get_task` (task_service.py lines 51-79); the `.error` payloads are
`str(e)` of the raised `NotFoundError` / `ForbiddenError` (which derive
from `AppException`, not `ValueError`). -/
def get_task (db : DB) (taskId userId : Nat) : Except String Task :=
  match db.tasks.find? (fun t => t.id == taskId) with
  | none => .error "Task not found"
  | some task =>
    if !can_access_task db taskId userId then .error "You do not have access to this task"
    else .ok task

/-- `get_user_tasks` (task_service.py lines 82-119): owner filter,
optional status/priority filters, count, `ORDER BY created_at DESC`,
`OFFSET skip LIMIT limit`.  The sort is modelled by insertion sort, a
sorted permutation as the SQL ordering guarantees. -/
def get_user_tasks (db : DB) (userId : Nat) (status : Option TaskStatus)
    (priority : Option TaskPriority) (skip limit : Nat) : List Task × Nat :=
  let q0 := db.tasks.filter (fun t => t.ownerId == userId)
  let q1 : List Task := match status with
    | some s => q0.filter (fun t => t.status == s)
    | none => q0
  let q2 : List Task := match priority with
    | some p => q1.filter (fun t => t.priority == p)
    | none => q1
  let total := q2.length
  (((q2.insertionSort createdDesc).drop skip).take limit, total)

/-- The update payload surviving `TaskUpdate.model_dump(exclude_none=True)`;
`none` means the field is absent from the kwargs. -/
structure UpdateFields where
  title : Option String := none
  description : Option String := none
  status : Option TaskStatus := none
  priority : Option TaskPriority := none
  deadline : Option Nat := none
deriving DecidableEq, Repr

/-- The `setattr` loop of service `update_task` over the allowed,
non-`None` fields. -/
def applyFields (t : Task) (f : UpdateFields) : Task :=
  let t1 : Task := match f.title with | some v => { t with title := v } | none => t
  let t2 : Task := match f.description with | some v => { t1 with description := some v } | none => t1
  let t3 : Task := match f.status with | some v => { t2 with status := v } | none => t2
  let t4 : Task := match f.priority with | some v => { t3 with priority := v } | none => t3
  match f.deadline with | some v => { t4 with deadline := some v } | none => t4

/-- Service `update_task` (task_service.py lines 122-178): lookup,
ownership check, field application, the completed-at rule, and the
always-refreshed `updated_at`. -/
def update_task_service (db : DB) (taskId userId : Nat) (f : UpdateFields) (now : Nat) :
    Except String (Task × DB) :=
  match db.tasks.find? (fun t => t.id == taskId) with
  | none => .error "Task not found"
  | some task =>
    if task.ownerId != userId then .error "You do not have permission to update this task"
    else
      let updated0 := applyFields task f
      let updated1 :=
        if f.status = some TaskStatus.completed then { updated0 with completedAt := some now }
        else updated0
      let updated := { updated1 with updatedAt := now }
      .ok (updated, { db with tasks := replaceFirst (fun t => t.id == taskId) updated db.tasks })

/-- Service `delete_task` (task_service.py lines 181-207); the share rows
of the deleted task go with it (`cascade="all, delete-orphan"`). -/
def delete_task_service (db : DB) (taskId userId : Nat) : Except String DB :=
  match db.tasks.find? (fun t => t.id == taskId) with
  | none => .error "Task not found"
  | some task =>
    if task.ownerId != userId then .error "You do not have permission to delete this task"
    else .ok { db with
      tasks := db.tasks.eraseP (fun t => t.id == taskId),
      shares := db.shares.filter (fun s => !(s.1 == taskId)) }

/-- Service `create_task` (task_service.py lines 17-48): the new row gets
`status=PENDING` explicitly; `priority` is not a parameter of the
service, so the row keeps the model column default `MEDIUM`
(models/task.py line 57).  `newId`/`now` stand for the generated UUID
and the row timestamps. -/
def create_task_service (db : DB) (userId : Nat) (title : String)
    (description : Option String) (deadline : Option Nat) (newId now : Nat) : Task × DB :=
  let task : Task :=
    { id := newId, ownerId := userId, title := title, description := description,
      deadline := deadline, status := .pending, priority := .medium,
      completedAt := none, createdAt := now, updatedAt := now }
  (task, { db with tasks := db.tasks ++ [task] })

/-- Wrap a string in single quotes, as the f-strings of tools.py do. -/
def pyQuote (s : String) : String := "\x27" ++ s ++ "\x27"

/-- The uniform tool result record (tools.py lines 23-28). -/
structure TaskResult where
  success : Bool
  message : String
  task_id : Option Nat := none
  task_title : Option String := none
deriving DecidableEq, Repr

/-- The arguments of the `update_task` tool (tools.py lines 152-160);
`none` is Python `None`. -/
structure UpdateArgs where
  task_id : String
  full_query : Option String := none
  title : Option String := none
  description : Option String := none
  status : Option String := none
  priority : Option String := none
  deadline : Option String := none
deriving Repr

/-- tools.py lines 262-265: infer a status from `full_query` only when
the explicit `status` argument is falsy (Python `None` or `""`) and
`full_query` is truthy; keep the inferred value only if truthy. -/
def mergeStatus (status full_query : Option String) : Option String :=
  if !(pyTruthy status) && pyTruthy full_query then
    match parse_status_from_query (full_query.getD "") with
    | some parsed => if pyTruthy (some parsed) then some parsed else status
    | none => status
  else status

/-- tools.py lines 267-270: the symmetric rule for `title`. -/
def mergeTitle (title full_query : Option String) : Option String :=
  if !(pyTruthy title) && pyTruthy full_query then
    match parse_title_from_query (full_query.getD "") with
    | some parsed => if pyTruthy (some parsed) then some parsed else title
    | none => title
  else title

/-- The `TaskUpdate` pydantic constraints relevant to the tool call
(schemas/task.py lines 39-44): `title` 1..500 chars, `description`
at most 5000 chars; violation raises, caught by the tool's outer
`except` clause. -/
def taskUpdateValid (title description : Option String) : Bool :=
  (match title with
   | some t => 1 ≤ t.length && t.length ≤ 500
   | none => true) &&
  (match description with
   | some d => d.length ≤ 5000
   | none => true)

/-- Keyword resolution shared verbatim by `update_task` (lines 231-236)
and `delete_task` (lines 416-421): lower-case and strip the identifier,
keep the candidates whose lower-cased title contains it. -/
def keywordMatches (task_id : String) (allTasks : List Task) : List Task :=
  let searchQuery := pyStrip (pyLower task_id)
  allTasks.filter (fun t => pyContains (pyLower t.title) searchQuery)

/-- The zero-match message of `update_task` (lines 238-243): available
titles capped at 5 (`all_tasks[:5]`). -/
def noMatchUpdateMsg (task_id : String) (allTasks : List Task) : String :=
  "No task found matching " ++ pyQuote task_id ++ ". Available tasks: " ++
    pyJoin ", " ((allTasks.take 5).map (fun t => pyQuote t.title))

/-- One disambiguation line of the multi-match message of `update_task`
(lines 247-250). -/
def updateCmdLine (t : Task) : String :=
  "Update " ++ pyQuote t.title ++ " - say: " ++ pyQuote ("update " ++ t.title) ++ " to be specific"

/-- The multi-match message of `update_task` (lines 245-255). -/
def multiMatchUpdateMsg (task_id : String) (ms : List Task) : String :=
  "Found " ++ toString ms.length ++ " tasks matching " ++ pyQuote task_id ++ ":\n" ++
    pyJoin "\n" (ms.map updateCmdLine) ++ "\n\nPlease be more specific!"

/-- One disambiguation line of the multi-match message of `delete_task`
(lines 430-434). -/
def deleteCmdLine (t : Task) : String :=
  "Delete " ++ pyQuote t.title ++ " - say: " ++ pyQuote ("delete " ++ t.title) ++ " to be specific"

/-- The multi-match message of `delete_task` (lines 429-439). -/
def multiMatchDeleteMsg (task_id : String) (ms : List Task) : String :=
  "Found " ++ toString ms.length ++ " tasks matching " ++ pyQuote task_id ++ ":\n" ++
    pyJoin "\n" (ms.map deleteCmdLine) ++ "\n\nPlease be more specific!"

/-- The post-resolution stage of the `update_task` tool (tools.py lines
261-343): intent merging, enum validation, deadline parsing, `TaskUpdate`
construction and the service update, with the success message.  An
`.error` propagates to the tool's outer `except` clause. -/
def updateTaskApply (fromiso : String → Option Nat) (db : DB) (userId now : Nat)
    (a : UpdateArgs) (taskUuid : Nat) : Except String (TaskResult × DB) :=
  let status := mergeStatus a.status a.full_query
  let title := mergeTitle a.title a.full_query
  if pyTruthy status && (TaskStatus.ofString (status.getD "")).isNone then
    .ok ({ success := false,
           message := "Invalid status. Must be: pending, in_progress, or completed" }, db)
  else if pyTruthy a.priority && (TaskPriority.ofString (a.priority.getD "")).isNone then
    .ok ({ success := false,
           message := "Invalid priority. Must be: low, medium, high, or urgent" }, db)
  else
    match (if pyTruthy a.deadline then (fromiso (replaceZ (a.deadline.getD ""))).map some
           else some none : Option (Option Nat)) with
    | none =>
      .ok ({ success := false, message := "Invalid deadline format. Use ISO 8601 format." }, db)
    | some deadlineDt =>
      if !(taskUpdateValid title a.description) then
        .error "1 validation error for TaskUpdate"
      else
        let fields : UpdateFields :=
          { title := title, description := a.description,
            status := if pyTruthy status then TaskStatus.ofString (status.getD "") else none,
            priority := if pyTruthy a.priority then TaskPriority.ofString (a.priority.getD "") else none,
            deadline := deadlineDt }
        match update_task_service db taskUuid userId fields now with
        | .error e => .error e
        | .ok (updated, db2) =>
          let updates :=
            (if pyTruthy title then ["title to " ++ pyQuote (title.getD "")] else []) ++
            (if pyTruthy status then ["status to " ++ status.getD ""] else []) ++
            (if pyTruthy a.priority then ["priority to " ++ a.priority.getD ""] else []) ++
            (if pyTruthy a.description then ["description"] else []) ++
            (if pyTruthy a.deadline then ["deadline"] else [])
          let message :=
            "Task " ++ pyQuote updated.title ++ " updated successfully" ++
            (if updates.isEmpty then "." else " - changed " ++ pyJoin ", " updates ++ ".")
          .ok ({ success := true, message := message,
                 task_id := some updated.id, task_title := some updated.title }, db2)

/-- The body of the `update_task` tool (tools.py lines 194-343) up to its
outer `except` clause.  `uuidParse` stands for the stdlib `UUID()`
constructor: `some` exactly on well-formed canonical ids.  A valid id
goes through `get_task` only (its `NotFoundError`/`ForbiddenError` are
not `ValueError`s, so they skip the keyword fallback and reach the outer
handler); everything else goes through the keyword search over
`get_user_tasks` with its default pagination (skip 0, limit 20). -/
def update_task_tool_run (uuidParse fromiso : String → Option Nat)
    (db : DB) (userId now : Nat) (a : UpdateArgs) : Except String (TaskResult × DB) :=
  match uuidParse a.task_id with
  | some tid =>
    match get_task db tid userId with
    | .error e => .error e
    | .ok _ => updateTaskApply fromiso db userId now a tid
  | none =>
    let allTasks := (get_user_tasks db userId none none 0 20).1
    if allTasks.isEmpty then
      .ok ({ success := false,
             message := "No tasks found. Cannot update task matching " ++ pyQuote a.task_id }, db)
    else
      match keywordMatches a.task_id allTasks with
      | [] => .ok ({ success := false, message := noMatchUpdateMsg a.task_id allTasks }, db)
      | [t] => updateTaskApply fromiso db userId now a t.id
      | ms => .ok ({ success := false, message := multiMatchUpdateMsg a.task_id ms }, db)

/-- The outer `except Exception` clause of each tool: any raised error is
converted to a `success=false` result and the database is untouched. -/
def exceptionGuard (failMsg : String) (db : DB) : Except String (TaskResult × DB) → TaskResult × DB
  | .ok r => r
  | .error e => ({ success := false, message := failMsg ++ e }, db)

/-- The `update_task` tool (tools.py lines 151-349). -/
def update_task_tool (uuidParse fromiso : String → Option Nat)
    (db : DB) (userId now : Nat) (a : UpdateArgs) : TaskResult × DB :=
  exceptionGuard "Failed to update task: " db (update_task_tool_run uuidParse fromiso db userId now a)

/-- The body of the `delete_task` tool (tools.py lines 370-454) up to its
outer `except` clause. -/
def delete_task_tool_run (uuidParse : String → Option Nat) (db : DB) (userId : Nat)
    (task_id : String) : Except String (TaskResult × DB) :=
  match uuidParse task_id with
  | some tid =>
    match get_task db tid userId with
    | .error e => .error e
    | .ok t =>
      match delete_task_service db tid userId with
      | .error e => .error e
      | .ok db2 =>
        .ok ({ success := true, message := "Task " ++ pyQuote t.title ++ " deleted successfully.",
               task_id := some tid, task_title := some t.title }, db2)
  | none =>
    let allTasks := (get_user_tasks db userId none none 0 20).1
    if allTasks.isEmpty then
      .ok ({ success := false,
             message := "No tasks found. Cannot delete task matching " ++ pyQuote task_id }, db)
    else
      match keywordMatches task_id allTasks with
      | [] =>
        .ok ({ success := false,
               message := "No task found matching " ++ pyQuote task_id ++
                 ". Try being more specific or provide the exact task name." }, db)
      | [t] =>
        match delete_task_service db t.id userId with
        | .error e => .error e
        | .ok db2 =>
          .ok ({ success := true, message := "Task " ++ pyQuote t.title ++ " deleted successfully.",
                 task_id := some t.id, task_title := some t.title }, db2)
      | ms => .ok ({ success := false, message := multiMatchDeleteMsg task_id ms }, db)

/-- The `delete_task` tool (tools.py lines 352-460). -/
def delete_task_tool (uuidParse : String → Option Nat) (db : DB) (userId : Nat)
    (task_id : String) : TaskResult × DB :=
  exceptionGuard "Failed to delete task: " db (delete_task_tool_run uuidParse db userId task_id)

/-- The `add_task` tool (tools.py lines 31-94): parse the deadline,
validate the `priority` argument against the enum, then call the
service `create_task` — which takes no priority at all — and report the
requested priority in the success message. -/
def add_task_tool (fromiso : String → Option Nat) (db : DB) (userId now newId : Nat)
    (title : String) (description : Option String) (priority : Option String)
    (deadline : Option String) : TaskResult × DB :=
  match (if pyTruthy deadline then (fromiso (replaceZ (deadline.getD ""))).map some
         else some none : Option (Option Nat)) with
  | none => ({ success := false, message := "Invalid deadline format. Use ISO 8601 format." }, db)
  | some deadlineDt =>
    match priority with
    | some p =>
      match TaskPriority.ofString p with
      | none =>
        ({ success := false, message := "Invalid priority. Must be: low, medium, high, or urgent" }, db)
      | some _ =>
        let (task, db2) := create_task_service db userId title description deadlineDt newId now
        ({ success := true,
           message := "Task " ++ pyQuote title ++ " created successfully with " ++ p ++ " priority.",
           task_id := some task.id, task_title := some task.title }, db2)
    | none =>
      ({ success := false, message := "Invalid priority. Must be: low, medium, high, or urgent" }, db)

/-! ### Spec-side definitions

The following definitions restate claimed behavior in the spec's own
words, to be compared against the source-translated functions above. -/

def completed_keywords : List String :=
  ["complete", "done", "finished", "mark as done", "mark complete"]

def in_progress_keywords : List String :=
  ["start", "in progress", "started", "working", "mark in progress"]

def pending_keywords : List String :=
  ["pending", "mark as pending", "not done", "reopen"]

/-- `extract_status` as the spec words it: lower-case the text, test the
three fixed keyword sets in precedence order, return the first category
any of whose keywords occurs as a substring, else no inference. -/
def extract_status_spec (text : String) : Option String :=
  let lowered := pyLower text
  if completed_keywords.any (fun w => pyContains lowered w) then some "completed"
  else if in_progress_keywords.any (fun w => pyContains lowered w) then some "in_progress"
  else if pending_keywords.any (fun w => pyContains lowered w) then some "pending"
  else none

/-- The trigger-phrase categories of `extract_title`, in the claimed
fixed checking order. -/
def titleTriggerCategories : List (List String) :=
  [["rename to ", "retitle to "], ["change title to"], ["name it ", "call it "]]

/-- `extract_title` as the claim words it: only the FIRST matching
trigger-phrase category is ever honored — if its extracted remainder is
empty after stripping, the result is no inference (no fall-through to
later categories). -/
def extract_title_spec (q : String) : Option String :=
  match titleTriggerCategories.find? (fun cat => cat.any (fun p => pyContains (pyLower q) p)) with
  | none => none
  | some cat =>
    match cat.find? (fun p => pyContains (pyLower q) p) with
    | none => none
    | some p => tryPattern p q

/-- `extract_title` as amended: the trigger phrases are tried in the
fixed order `"rename to "`, `"retitle to "`, `"change title to"`,
`"name it "`, `"call it "`, and the result is the first nonempty
stripped remainder; a phrase whose remainder strips to empty is skipped
and later phrases are still tried. -/
def extract_title_amended (q : String) : Option String :=
  let c1 := (tryPattern "rename to " q).orElse (fun _ => tryPattern "retitle to " q)
  let c2 := tryPattern "change title to" q
  let c3 := (tryPattern "name it " q).orElse (fun _ => tryPattern "call it " q)
  (c1.orElse (fun _ => c2)).orElse (fun _ => c3)

/-! ### Concrete fixtures used by witnesses and counterexamples -/

/-- The task of the single-task database. -/
def milkTask : Task := { id := 1, ownerId := 7, title := "Buy milk", createdAt := 1 }

/-- A single-task database. -/
def dbMilk : DB := { tasks := [milkTask] }

def taskMilk2 : Task := { id := 1, ownerId := 7, title := "Buy milk", createdAt := 2 }

def taskEggs : Task := { id := 2, ownerId := 7, title := "Buy eggs", createdAt := 1 }

/-- The spec's two-task resolver example: ids 1 and 2, titles
"Buy milk" and "Buy eggs" (id 1 the more recently created). -/
def dbPair : DB := { tasks := [taskMilk2, taskEggs] }

/-- The `i`-th task of the large fixture: task 1 has a unique title, the
rest are uniform; `created_at` grows with the id. -/
def bigTask (i : Nat) : Task :=
  { id := i, ownerId := 7,
    title := if i == 1 then "Unique milk errand" else "Task " ++ toString i,
    createdAt := i }

/-- Twenty-one tasks of one owner: task 1 is the oldest. -/
def dbBig : DB := { tasks := (List.range 21).map (fun i => bigTask (i + 1)) }

/-- An id parser that recognizes no identifier: every lookup goes down
the keyword path. -/
def uuidParseNone : String → Option Nat := fun _ => none

/-- An id parser for which "1" and "2" are well-formed ids. -/
def uuidParseDigits : String → Option Nat := fun s =>
  if s == "1" then some 1 else if s == "2" then some 2 else none

/-- An id parser for which the word "milk" happens to be a well-formed
id (naming task 99): used to show the id path never falls back to
keyword matching. -/
def uuidParseMilk : String → Option Nat := fun s => if s == "milk" then some 99 else none

/-- A timestamp parser accepting nothing. -/
def isoNone : String → Option Nat := fun _ => none

/-- A timestamp parser accepting exactly "2031-01-01T00:00:00+00:00"
(also reached from the trailing-Z spelling via the Z-replacement). -/
def isoOne : String → Option Nat := fun s =>
  if s == "2031-01-01T00:00:00+00:00" then some 123 else none

/-! ### Lemmas about the substring primitive -/

theorem findSub_some_isPrefixOf {p : List Char} :
    ∀ {t : List Char} {i : Nat}, findSub p t = some i → p.isPrefixOf (t.drop i) = true := by
  intro t
  induction t with
  | nil =>
    intro i h
    unfold findSub at h
    by_cases hp : p.isPrefixOf ([] : List Char) = true
    · rw [if_pos hp] at h
      cases h
      simpa using hp
    · rw [if_neg hp] at h
      cases h
  | cons c rest ih =>
    intro i h
    unfold findSub at h
    by_cases hp : p.isPrefixOf (c :: rest) = true
    · rw [if_pos hp] at h
      cases h
      simpa using hp
    · rw [if_neg hp] at h
      rcases Option.map_eq_some'.mp h with ⟨j, hj, hij⟩
      subst hij
      simpa using ih hj

theorem findSub_isSome_of_isPrefixOf {p : List Char} :
    ∀ {t : List Char} {i : Nat}, p.isPrefixOf (t.drop i) = true → (findSub p t).isSome = true := by
  intro t
  induction t with
  | nil =>
    intro i h
    rw [List.drop_nil] at h
    unfold findSub
    rw [if_pos h]
    rfl
  | cons c rest ih =>
    intro i h
    unfold findSub
    by_cases hp : p.isPrefixOf (c :: rest) = true
    · rw [if_pos hp]; rfl
    · rw [if_neg hp]
      cases i with
      | zero => exact absurd h hp
      | succ j =>
        rw [List.drop_succ_cons] at h
        have := ih h
        rcases Option.isSome_iff_exists.mp this with ⟨k, hk⟩
        rw [hk]
        rfl

/-- `findSub` finds an occurrence iff the pattern is an infix. -/
theorem findSub_isSome_iff_isInfix {p t : List Char} :
    (findSub p t).isSome = true ↔ p <:+: t := by
  constructor
  · intro h
    rcases Option.isSome_iff_exists.mp h with ⟨i, hi⟩
    have hpre := List.isPrefixOf_iff_prefix.mp (findSub_some_isPrefixOf hi)
    exact List.infix_iff_prefix_suffix.mpr ⟨t.drop i, hpre, List.drop_suffix i t⟩
  · rintro ⟨s, u, rfl⟩
    apply findSub_isSome_of_isPrefixOf (i := s.length)
    rw [List.append_assoc, List.drop_left]
    exact List.isPrefixOf_iff_prefix.mpr (List.prefix_append p u)

/-- Bridge between the Python `in` model and list-infix. -/
theorem pyContains_iff_isInfix {hay needle : String} :
    pyContains hay needle = true ↔ needle.data <:+: hay.data := by
  unfold pyContains
  exact findSub_isSome_iff_isInfix

theorem pyContains_append_right {a b p : String} (h : pyContains b p = true) :
    pyContains (a ++ b) p = true := by
  rw [pyContains_iff_isInfix] at h ⊢
  rw [String.data_append]
  exact h.trans ⟨a.data, [], by simp⟩

theorem pyContains_append_left {a b p : String} (h : pyContains a p = true) :
    pyContains (a ++ b) p = true := by
  rw [pyContains_iff_isInfix] at h ⊢
  rw [String.data_append]
  exact h.trans ⟨[], b.data, by simp⟩

theorem pyContains_refl {p : String} : pyContains p p = true :=
  pyContains_iff_isInfix.mpr (List.infix_refl p.data)

/-- A quoted string contains its payload. -/
theorem pyContains_pyQuote {t : String} : pyContains (pyQuote t) t = true := by
  unfold pyQuote
  exact pyContains_append_left (pyContains_append_right pyContains_refl)

/-- Everything placed in a `pyJoin` stays visible as a substring. -/
theorem pyContains_pyJoin {sep p : String} :
    ∀ {l : List String} {s : String}, s ∈ l → pyContains s p = true →
      pyContains (pyJoin sep l) p = true := by
  intro l
  induction l with
  | nil => intro s h; cases h
  | cons x rest ih =>
    intro s hmem hc
    cases rest with
    | nil =>
      rcases List.mem_singleton.mp hmem with rfl
      simpa [pyJoin] using hc
    | cons y ys =>
      show pyContains (x ++ sep ++ pyJoin sep (y :: ys)) p = true
      rcases List.mem_cons.mp hmem with rfl | hmem2
      · exact pyContains_append_left (pyContains_append_left hc)
      · exact pyContains_append_right (ih hmem2 hc)

/-- If a shorter pattern does not occur, neither does any pattern
extending it, so the corresponding trigger step yields nothing. -/
theorem tryPattern_eq_none_of_not_contains {pre pat q : String}
    (hp : pre.data <+: pat.data) (h : pyContains (pyLower q) pre = false) :
    tryPattern pat q = none := by
  unfold tryPattern
  cases hfs : findSub pat.data (pyLower q).data with
  | none => rfl
  | some i =>
    exfalso
    have h1 : (findSub pat.data (pyLower q).data).isSome = true := by rw [hfs]; rfl
    have h2 : pat.data <:+: (pyLower q).data := findSub_isSome_iff_isInfix.mp h1
    have h4 : pyContains (pyLower q) pre = true :=
      pyContains_iff_isInfix.mpr (hp.isInfix.trans h2)
    rw [h] at h4
    cases h4

/-- Dropping a guard that is implied by its body. -/
theorem if_guard_eq {c : Option String} {g : Bool} (h : g = false → c = none) :
    (if g = true then c else none) = c := by
  cases hg : g
  · rw [if_neg (by simp), h hg]
  · rw [if_pos rfl]

/-! ### Claim theorems -/

/-- C1: `extract_status` (`_parse_status_from_query`) lower-cases the
text and returns the first of the three fixed keyword categories,
checked in fixed precedence order, any of whose keywords occurs as a
substring ("completed" before "in_progress" before "pending"), and no
inference otherwise; in particular
`extract_status("start and then complete the task") = completed` (the
completed category is checked first) and
`extract_status("buy milk") = none`. -/
theorem extract_status_confirmed :
    (∀ q, parse_status_from_query q = extract_status_spec q) ∧
    parse_status_from_query "start and then complete the task" = some "completed" ∧
    parse_status_from_query "buy milk" = none :=
  ⟨fun _ => rfl, by decide, by decide⟩

/-- C2 counterexample: on `"name it Foo rename to ."` the
earliest-checked matching trigger category is `"rename to "`, whose
extracted remainder strips to empty, so the claim predicts no
inference; the code instead falls through to the `"name it "` trigger
and returns `"Foo rename to "` (note the retained trailing space:
`rstrip('.,!?')` runs after `strip()`). -/
theorem extract_title_claim_counterexample :
    extract_title_spec "name it Foo rename to ." = none ∧
    parse_title_from_query "name it Foo rename to ." = some "Foo rename to " :=
  ⟨by decide, by decide⟩

/-- C2 as amended: `extract_title` tries the trigger phrases in the
fixed order `"rename to "`, `"retitle to "`, `"change title to"`,
`"name it "`, `"call it "` and returns, for the first phrase present in
the lower-cased text whose original-case remainder (after its first
occurrence, whitespace-stripped, then `.,!?`-right-stripped) is
nonempty, that remainder; phrases whose remainder is empty are skipped
(control falls through to later phrases and categories), and no
inference is returned only when no phrase yields a nonempty
remainder. -/
theorem extract_title_amended_theorem (q : String) :
    parse_title_from_query q = extract_title_amended q := by
  have hren : "rename to".data <+: "rename to ".data := by decide
  have hret : "retitle to".data <+: "retitle to ".data := by decide
  have hnam : "name it".data <+: "name it ".data := by decide
  have hcal : "call it".data <+: "call it ".data := by decide
  have hcha : "change title to".data <+: "change title to".data := List.prefix_rfl
  have e1 : (if (pyContains (pyLower q) "rename to" || pyContains (pyLower q) "retitle to") = true
        then (tryPattern "rename to " q).orElse (fun _ => tryPattern "retitle to " q) else none)
      = (tryPattern "rename to " q).orElse (fun _ => tryPattern "retitle to " q) := by
    apply if_guard_eq
    intro hg
    rw [Bool.or_eq_false_iff] at hg
    rw [tryPattern_eq_none_of_not_contains hren hg.1,
        tryPattern_eq_none_of_not_contains hret hg.2]
    rfl
  have e2 : (if pyContains (pyLower q) "change title to" = true
        then tryPattern "change title to" q else none)
      = tryPattern "change title to" q := by
    apply if_guard_eq
    intro hg
    exact tryPattern_eq_none_of_not_contains hcha hg
  have e3 : (if (pyContains (pyLower q) "name it" || pyContains (pyLower q) "call it") = true
        then (tryPattern "name it " q).orElse (fun _ => tryPattern "call it " q) else none)
      = (tryPattern "name it " q).orElse (fun _ => tryPattern "call it " q) := by
    apply if_guard_eq
    intro hg
    rw [Bool.or_eq_false_iff] at hg
    rw [tryPattern_eq_none_of_not_contains hnam hg.1,
        tryPattern_eq_none_of_not_contains hcal hg.2]
    rfl
  show ((if (pyContains (pyLower q) "rename to" || pyContains (pyLower q) "retitle to") = true
        then (tryPattern "rename to " q).orElse (fun _ => tryPattern "retitle to " q)
        else none).orElse (fun _ =>
          if pyContains (pyLower q) "change title to" = true
          then tryPattern "change title to" q else none)).orElse (fun _ =>
            if (pyContains (pyLower q) "name it" || pyContains (pyLower q) "call it") = true
            then (tryPattern "name it " q).orElse (fun _ => tryPattern "call it " q)
            else none)
      = extract_title_amended q
  rw [e1, e2, e3]
  rfl

/-! ### Truthiness of parser outputs, and `Option` plumbing -/

theorem orElse_eq_some {α} {a : Option α} {f : Unit → Option α} {v : α}
    (h : a.orElse f = some v) : a = some v ∨ f () = some v := by
  cases a with
  | none => exact Or.inr h
  | some x => exact Or.inl h

theorem ifGuard_eq_some {c : Option String} {g : Bool} {v : String}
    (h : (if g = true then c else none) = some v) : c = some v := by
  cases hg : g
  · rw [hg] at h; simp at h
  · rw [hg] at h; simpa using h

theorem parse_status_some_truthy {q v : String} (h : parse_status_from_query q = some v) :
    pyTruthy (some v) = true := by
  unfold parse_status_from_query at h
  dsimp only at h
  split at h
  · cases h; decide
  · split at h
    · cases h; decide
    · split at h
      · cases h; decide
      · cases h

theorem tryPattern_some_truthy {p q v : String} (h : tryPattern p q = some v) :
    pyTruthy (some v) = true := by
  unfold tryPattern at h
  cases hfs : findSub p.data (pyLower q).data with
  | none => rw [hfs] at h; cases h
  | some i =>
    rw [hfs] at h
    dsimp only at h
    by_cases he :
        (pyRstripPunct (pyStrip (String.mk (q.data.drop (i + p.data.length)))) == "") = true
    · rw [if_pos he] at h; cases h
    · rw [if_neg he] at h
      cases h
      simpa [pyTruthy] using he

theorem parse_title_some_truthy {q v : String} (h : parse_title_from_query q = some v) :
    pyTruthy (some v) = true := by
  unfold parse_title_from_query at h
  rcases orElse_eq_some h with h1 | h3
  · rcases orElse_eq_some h1 with h1a | h2
    · rcases orElse_eq_some (ifGuard_eq_some h1a) with ht | ht
      · exact tryPattern_some_truthy ht
      · exact tryPattern_some_truthy ht
    · exact tryPattern_some_truthy (ifGuard_eq_some h2)
  · rcases orElse_eq_some (ifGuard_eq_some h3) with ht | ht
    · exact tryPattern_some_truthy ht
    · exact tryPattern_some_truthy ht

/-- C5 counterexample: the explicit status argument is set (to the
empty string); the claim says it must be applied and inference not
used, but the code treats a falsy explicit argument as absent, runs
`extract_status` on the query, and applies the inferred `completed`. -/
theorem explicit_override_counterexample :
    ({ task_id := "milk", status := some "", full_query := some "mark as done" } : UpdateArgs).status
        = some "" ∧
    mergeStatus (some "") (some "mark as done") = some "completed" ∧
    (update_task_tool uuidParseNone isoNone dbMilk 7 5
      { task_id := "milk", status := some "", full_query := some "mark as done" }).1.success = true ∧
    ((update_task_tool uuidParseNone isoNone dbMilk 7 5
      { task_id := "milk", status := some "", full_query := some "mark as done" }).2.tasks.map
        Task.status) = [TaskStatus.completed] :=
  ⟨rfl, by decide, by decide, by decide⟩

/-- C5 as amended: if the explicit `status` argument is set to a
nonempty string (Python-truthy), the status fed into the update is that
explicit value and free-text inference is not consulted; only when the
explicit status is falsy (`None` or `""`) and `full_query` is truthy is
`extract_status` run (a truthy inferred value replaces the status, an
absent one leaves it as it was); the symmetric rule holds for `title`;
in particular explicit status `"pending"` with query `"mark as done"`
yields `pending`. -/
theorem explicit_override_amended :
    (∀ s fq, pyTruthy s = true → mergeStatus s fq = s) ∧
    (∀ s fq, pyTruthy s = false → pyTruthy fq = false → mergeStatus s fq = s) ∧
    (∀ s fq v, pyTruthy s = false → pyTruthy fq = true →
      parse_status_from_query (fq.getD "") = some v → mergeStatus s fq = some v) ∧
    (∀ s fq, pyTruthy s = false → pyTruthy fq = true →
      parse_status_from_query (fq.getD "") = none → mergeStatus s fq = s) ∧
    (∀ t fq, pyTruthy t = true → mergeTitle t fq = t) ∧
    (∀ t fq, pyTruthy t = false → pyTruthy fq = false → mergeTitle t fq = t) ∧
    (∀ t fq v, pyTruthy t = false → pyTruthy fq = true →
      parse_title_from_query (fq.getD "") = some v → mergeTitle t fq = some v) ∧
    (∀ t fq, pyTruthy t = false → pyTruthy fq = true →
      parse_title_from_query (fq.getD "") = none → mergeTitle t fq = t) ∧
    mergeStatus (some "pending") (some "mark as done") = some "pending" := by
  refine ⟨?_, ?_, ?_, ?_, ?_, ?_, ?_, ?_, by decide⟩
  · intro s fq hs
    simp [mergeStatus, hs]
  · intro s fq hs hfq
    simp [mergeStatus, hs, hfq]
  · intro s fq v hs hfq hp
    simp [mergeStatus, hs, hfq, hp, parse_status_some_truthy hp]
  · intro s fq hs hfq hp
    simp [mergeStatus, hs, hfq, hp]
  · intro t fq ht
    simp [mergeTitle, ht]
  · intro t fq ht hfq
    simp [mergeTitle, ht, hfq]
  · intro t fq v ht hfq hp
    simp [mergeTitle, ht, hfq, hp, parse_title_some_truthy hp]
  · intro t fq ht hfq hp
    simp [mergeTitle, ht, hfq, hp]

/-- Closed instance of `explicit_override_amended`. -/
theorem explicit_override_amended_witness :
    mergeStatus (some "pending") (some "mark as done") = some "pending" ∧
    mergeTitle none (some "rename to groceries") = some "groceries" :=
  ⟨explicit_override_amended.1 (some "pending") (some "mark as done") (by decide),
   explicit_override_amended.2.2.2.2.2.2.1 none (some "rename to groceries") "groceries"
     (by decide) (by decide) (by decide)⟩

/-! ### Validation failures of the update pipeline -/

theorem updateTaskApply_invalid_status {iso : String → Option Nat} {db : DB} {uid now : Nat}
    {a : UpdateArgs} (tid : Nat)
    (hc : (pyTruthy (mergeStatus a.status a.full_query) &&
           (TaskStatus.ofString ((mergeStatus a.status a.full_query).getD "")).isNone) = true) :
    updateTaskApply iso db uid now a tid =
      .ok ({ success := false,
             message := "Invalid status. Must be: pending, in_progress, or completed" }, db) := by
  unfold updateTaskApply
  dsimp only
  rw [if_pos hc]

theorem updateTaskApply_invalid_priority {iso : String → Option Nat} {db : DB} {uid now : Nat}
    {a : UpdateArgs} (tid : Nat)
    (hc1 : (pyTruthy (mergeStatus a.status a.full_query) &&
            (TaskStatus.ofString ((mergeStatus a.status a.full_query).getD "")).isNone) = false)
    (hc2 : (pyTruthy a.priority && (TaskPriority.ofString (a.priority.getD "")).isNone) = true) :
    updateTaskApply iso db uid now a tid =
      .ok ({ success := false,
             message := "Invalid priority. Must be: low, medium, high, or urgent" }, db) := by
  unfold updateTaskApply
  dsimp only
  rw [if_neg (by simp [hc1]), if_pos hc2]

theorem updateTaskApply_invalid_deadline {iso : String → Option Nat} {db : DB} {uid now : Nat}
    {a : UpdateArgs} (tid : Nat)
    (hc1 : (pyTruthy (mergeStatus a.status a.full_query) &&
            (TaskStatus.ofString ((mergeStatus a.status a.full_query).getD "")).isNone) = false)
    (hc2 : (pyTruthy a.priority && (TaskPriority.ofString (a.priority.getD "")).isNone) = false)
    (hd : pyTruthy a.deadline = true)
    (hiso : iso (replaceZ (a.deadline.getD "")) = none) :
    updateTaskApply iso db uid now a tid =
      .ok ({ success := false, message := "Invalid deadline format. Use ISO 8601 format." }, db) := by
  unfold updateTaskApply
  dsimp only
  rw [if_neg (by simp [hc1]), if_neg (by simp [hc2]), if_pos hd, hiso]
  rfl

/-- If the post-resolution stage fails uniformly (for every candidate
id), the whole tool call fails with the database untouched, whatever
path resolution takes. -/
theorem update_tool_of_apply {up iso : String → Option Nat} {db : DB} {uid now : Nat}
    {a : UpdateArgs}
    (h : ∀ tid, ∃ m, updateTaskApply iso db uid now a tid =
          Except.ok ({ success := false, message := m }, db)) :
    (update_task_tool up iso db uid now a).1.success = false ∧
    (update_task_tool up iso db uid now a).2 = db := by
  unfold update_task_tool update_task_tool_run
  cases hup : up a.task_id with
  | some tid =>
    dsimp only
    cases hg : get_task db tid uid with
    | error e => simp [exceptionGuard]
    | ok t =>
      rcases h tid with ⟨m, hm⟩
      rw [hm]
      simp [exceptionGuard]
  | none =>
    dsimp only
    by_cases he : ((get_user_tasks db uid none none 0 20).1).isEmpty = true
    · rw [if_pos he]
      simp [exceptionGuard]
    · rw [if_neg he]
      cases hk : keywordMatches a.task_id (get_user_tasks db uid none none 0 20).1 with
      | nil => simp [exceptionGuard]
      | cons t ts =>
        cases ts with
        | nil =>
          rcases h t.id with ⟨m, hm⟩
          dsimp only
          rw [hm]
          simp [exceptionGuard]
        | cons t2 ts2 => simp [exceptionGuard]

/-- C6 counterexample: the explicit status value `""` is not a member
of the status enum, yet the update succeeds (the code treats falsy
values as absent and skips validation), contradicting the claim that
any non-member status fails the whole operation. -/
theorem validation_failure_counterexample :
    TaskStatus.ofString "" = none ∧
    ({ task_id := "milk", status := some "" } : UpdateArgs).status = some "" ∧
    (update_task_tool uuidParseNone isoNone dbMilk 7 5
      { task_id := "milk", status := some "" }).1.success = true :=
  ⟨rfl, rfl, by decide⟩

/-- C6 as amended: for every update invocation in which the status
value in force after merging (explicit or inferred) is a nonempty
string outside the status enum, or the priority argument is a nonempty
string outside the priority enum, or the deadline argument is a
nonempty string the timestamp parser rejects, the whole operation
fails (`success=false`) and the database is completely unchanged — no
partial mutation; at the post-resolution stage the failure message
names the allowed values/format of the offending field (status checked
before priority before deadline).  Empty-string values are treated as
absent (Python truthiness) and skipped rather than rejected. -/
theorem validation_failure_amended (up iso : String → Option Nat) (db : DB)
    (uid now : Nat) (a : UpdateArgs) :
    (pyTruthy (mergeStatus a.status a.full_query) = true →
      TaskStatus.ofString ((mergeStatus a.status a.full_query).getD "") = none →
      (update_task_tool up iso db uid now a).1.success = false ∧
      (update_task_tool up iso db uid now a).2 = db) ∧
    (pyTruthy a.priority = true →
      TaskPriority.ofString (a.priority.getD "") = none →
      (update_task_tool up iso db uid now a).1.success = false ∧
      (update_task_tool up iso db uid now a).2 = db) ∧
    (pyTruthy a.deadline = true →
      iso (replaceZ (a.deadline.getD "")) = none →
      (update_task_tool up iso db uid now a).1.success = false ∧
      (update_task_tool up iso db uid now a).2 = db) ∧
    (∀ tid, pyTruthy (mergeStatus a.status a.full_query) = true →
      TaskStatus.ofString ((mergeStatus a.status a.full_query).getD "") = none →
      updateTaskApply iso db uid now a tid =
        .ok ({ success := false,
               message := "Invalid status. Must be: pending, in_progress, or completed" }, db)) ∧
    (∀ tid, (pyTruthy (mergeStatus a.status a.full_query) &&
             (TaskStatus.ofString ((mergeStatus a.status a.full_query).getD "")).isNone) = false →
      pyTruthy a.priority = true → TaskPriority.ofString (a.priority.getD "") = none →
      updateTaskApply iso db uid now a tid =
        .ok ({ success := false,
               message := "Invalid priority. Must be: low, medium, high, or urgent" }, db)) ∧
    (∀ tid, (pyTruthy (mergeStatus a.status a.full_query) &&
             (TaskStatus.ofString ((mergeStatus a.status a.full_query).getD "")).isNone) = false →
      (pyTruthy a.priority && (TaskPriority.ofString (a.priority.getD "")).isNone) = false →
      pyTruthy a.deadline = true → iso (replaceZ (a.deadline.getD "")) = none →
      updateTaskApply iso db uid now a tid =
        .ok ({ success := false,
               message := "Invalid deadline format. Use ISO 8601 format." }, db)) := by
  refine ⟨?_, ?_, ?_, ?_, ?_, ?_⟩
  · intro hms hofs
    apply update_tool_of_apply
    intro tid
    exact ⟨_, updateTaskApply_invalid_status tid (by rw [hms, hofs]; rfl)⟩
  · intro hp hop
    apply update_tool_of_apply
    intro tid
    by_cases c1 : (pyTruthy (mergeStatus a.status a.full_query) &&
        (TaskStatus.ofString ((mergeStatus a.status a.full_query).getD "")).isNone) = true
    · exact ⟨_, updateTaskApply_invalid_status tid c1⟩
    · exact ⟨_, updateTaskApply_invalid_priority tid (Bool.eq_false_iff.mpr c1)
        (by rw [hp, hop]; rfl)⟩
  · intro hd hiso
    apply update_tool_of_apply
    intro tid
    by_cases c1 : (pyTruthy (mergeStatus a.status a.full_query) &&
        (TaskStatus.ofString ((mergeStatus a.status a.full_query).getD "")).isNone) = true
    · exact ⟨_, updateTaskApply_invalid_status tid c1⟩
    · by_cases c2 : (pyTruthy a.priority && (TaskPriority.ofString (a.priority.getD "")).isNone) = true
      · exact ⟨_, updateTaskApply_invalid_priority tid (Bool.eq_false_iff.mpr c1) c2⟩
      · exact ⟨_, updateTaskApply_invalid_deadline tid (Bool.eq_false_iff.mpr c1)
          (Bool.eq_false_iff.mpr c2) hd hiso⟩
  · intro tid hms hofs
    exact updateTaskApply_invalid_status tid (by rw [hms, hofs]; rfl)
  · intro tid hc1 hp hop
    exact updateTaskApply_invalid_priority tid hc1 (by rw [hp, hop]; rfl)
  · intro tid hc1 hc2 hd hiso
    exact updateTaskApply_invalid_deadline tid hc1 hc2 hd hiso

/-- Closed instance of `validation_failure_amended`: a bogus nonempty
status fails the call and leaves the database unchanged. -/
theorem validation_failure_amended_witness :
    (update_task_tool uuidParseNone isoNone dbMilk 7 5
      { task_id := "milk", status := some "bogus" }).1.success = false ∧
    (update_task_tool uuidParseNone isoNone dbMilk 7 5
      { task_id := "milk", status := some "bogus" }).2 = dbMilk :=
  (validation_failure_amended uuidParseNone isoNone dbMilk 7 5
    { task_id := "milk", status := some "bogus" }).1 (by decide) (by decide)

/-! ### The keyword-resolution paths of the two tools -/

theorem keywordMatches_of_empty {x : String} {l : List Task} (h : l.isEmpty = true) :
    keywordMatches x l = [] := by
  cases l with
  | nil => rfl
  | cons a l2 => cases h

theorem update_tool_keyword_empty_pool {up iso : String → Option Nat} {db : DB}
    {uid now : Nat} {a : UpdateArgs} (hup : up a.task_id = none)
    (he : ((get_user_tasks db uid none none 0 20).1).isEmpty = true) :
    update_task_tool up iso db uid now a =
      ({ success := false,
         message := "No tasks found. Cannot update task matching " ++ pyQuote a.task_id }, db) := by
  unfold update_task_tool update_task_tool_run
  rw [hup]
  dsimp only
  rw [if_pos he]
  rfl

theorem update_tool_keyword_nomatch {up iso : String → Option Nat} {db : DB}
    {uid now : Nat} {a : UpdateArgs} (hup : up a.task_id = none)
    (he : ((get_user_tasks db uid none none 0 20).1).isEmpty = false)
    (hk : keywordMatches a.task_id (get_user_tasks db uid none none 0 20).1 = []) :
    update_task_tool up iso db uid now a =
      ({ success := false,
         message := noMatchUpdateMsg a.task_id (get_user_tasks db uid none none 0 20).1 }, db) := by
  unfold update_task_tool update_task_tool_run
  rw [hup]
  dsimp only
  rw [if_neg (by simp [he]), hk]
  rfl

theorem update_tool_keyword_single {up iso : String → Option Nat} {db : DB}
    {uid now : Nat} {a : UpdateArgs} {t : Task} (hup : up a.task_id = none)
    (hk : keywordMatches a.task_id (get_user_tasks db uid none none 0 20).1 = [t]) :
    update_task_tool up iso db uid now a =
      exceptionGuard "Failed to update task: " db (updateTaskApply iso db uid now a t.id) := by
  unfold update_task_tool update_task_tool_run
  rw [hup]
  dsimp only
  have he : ((get_user_tasks db uid none none 0 20).1).isEmpty = false := by
    cases hp : (get_user_tasks db uid none none 0 20).1 with
    | nil => rw [hp] at hk; simp [keywordMatches] at hk
    | cons b l2 => rfl
  rw [if_neg (by simp [he]), hk]

theorem update_tool_keyword_multi {up iso : String → Option Nat} {db : DB}
    {uid now : Nat} {a : UpdateArgs} {t1 t2 : Task} {ts : List Task} (hup : up a.task_id = none)
    (hk : keywordMatches a.task_id (get_user_tasks db uid none none 0 20).1 = t1 :: t2 :: ts) :
    update_task_tool up iso db uid now a =
      ({ success := false, message := multiMatchUpdateMsg a.task_id (t1 :: t2 :: ts) }, db) := by
  unfold update_task_tool update_task_tool_run
  rw [hup]
  dsimp only
  have he : ((get_user_tasks db uid none none 0 20).1).isEmpty = false := by
    cases hp : (get_user_tasks db uid none none 0 20).1 with
    | nil => rw [hp] at hk; simp [keywordMatches] at hk
    | cons b l2 => rfl
  rw [if_neg (by simp [he]), hk]
  rfl

theorem delete_tool_keyword_empty_pool {up : String → Option Nat} {db : DB}
    {uid : Nat} {tidStr : String} (hup : up tidStr = none)
    (he : ((get_user_tasks db uid none none 0 20).1).isEmpty = true) :
    delete_task_tool up db uid tidStr =
      ({ success := false,
         message := "No tasks found. Cannot delete task matching " ++ pyQuote tidStr }, db) := by
  unfold delete_task_tool delete_task_tool_run
  rw [hup]
  dsimp only
  rw [if_pos he]
  rfl

theorem delete_tool_keyword_nomatch {up : String → Option Nat} {db : DB}
    {uid : Nat} {tidStr : String} (hup : up tidStr = none)
    (he : ((get_user_tasks db uid none none 0 20).1).isEmpty = false)
    (hk : keywordMatches tidStr (get_user_tasks db uid none none 0 20).1 = []) :
    delete_task_tool up db uid tidStr =
      ({ success := false,
         message := "No task found matching " ++ pyQuote tidStr ++
           ". Try being more specific or provide the exact task name." }, db) := by
  unfold delete_task_tool delete_task_tool_run
  rw [hup]
  dsimp only
  rw [if_neg (by simp [he]), hk]
  rfl

theorem delete_tool_keyword_single {up : String → Option Nat} {db : DB}
    {uid : Nat} {tidStr : String} {t : Task} (hup : up tidStr = none)
    (hk : keywordMatches tidStr (get_user_tasks db uid none none 0 20).1 = [t]) :
    delete_task_tool up db uid tidStr =
      exceptionGuard "Failed to delete task: " db
        (match delete_task_service db t.id uid with
         | .error e => .error e
         | .ok db2 =>
           .ok ({ success := true, message := "Task " ++ pyQuote t.title ++ " deleted successfully.",
                  task_id := some t.id, task_title := some t.title }, db2)) := by
  unfold delete_task_tool delete_task_tool_run
  rw [hup]
  dsimp only
  have he : ((get_user_tasks db uid none none 0 20).1).isEmpty = false := by
    cases hp : (get_user_tasks db uid none none 0 20).1 with
    | nil => rw [hp] at hk; simp [keywordMatches] at hk
    | cons b l2 => rfl
  rw [if_neg (by simp [he]), hk]

theorem delete_tool_keyword_multi {up : String → Option Nat} {db : DB}
    {uid : Nat} {tidStr : String} {t1 t2 : Task} {ts : List Task} (hup : up tidStr = none)
    (hk : keywordMatches tidStr (get_user_tasks db uid none none 0 20).1 = t1 :: t2 :: ts) :
    delete_task_tool up db uid tidStr =
      ({ success := false, message := multiMatchDeleteMsg tidStr (t1 :: t2 :: ts) }, db) := by
  unfold delete_task_tool delete_task_tool_run
  rw [hup]
  dsimp only
  have he : ((get_user_tasks db uid none none 0 20).1).isEmpty = false := by
    cases hp : (get_user_tasks db uid none none 0 20).1 with
    | nil => rw [hp] at hk; simp [keywordMatches] at hk
    | cons b l2 => rfl
  rw [if_neg (by simp [he]), hk]
  rfl

/-! ### Visibility of matches in the disambiguation messages -/

theorem updateCmdLine_contains_title (u : Task) :
    pyContains (updateCmdLine u) u.title = true := by
  unfold updateCmdLine
  exact pyContains_append_left (pyContains_append_left (pyContains_append_left
    (pyContains_append_right pyContains_pyQuote)))

theorem updateCmdLine_contains_cmd (u : Task) :
    pyContains (updateCmdLine u) ("update " ++ u.title) = true := by
  unfold updateCmdLine
  exact pyContains_append_left (pyContains_append_right pyContains_pyQuote)

theorem deleteCmdLine_contains_title (u : Task) :
    pyContains (deleteCmdLine u) u.title = true := by
  unfold deleteCmdLine
  exact pyContains_append_left (pyContains_append_left (pyContains_append_left
    (pyContains_append_right pyContains_pyQuote)))

theorem deleteCmdLine_contains_cmd (u : Task) :
    pyContains (deleteCmdLine u) ("delete " ++ u.title) = true := by
  unfold deleteCmdLine
  exact pyContains_append_left (pyContains_append_right pyContains_pyQuote)

theorem multiMatchUpdateMsg_contains {x : String} {ms : List Task} {u : Task} (hu : u ∈ ms) :
    pyContains (multiMatchUpdateMsg x ms) u.title = true ∧
    pyContains (multiMatchUpdateMsg x ms) ("update " ++ u.title) = true := by
  unfold multiMatchUpdateMsg
  constructor
  · exact pyContains_append_left (pyContains_append_right
      (pyContains_pyJoin (List.mem_map_of_mem updateCmdLine hu) (updateCmdLine_contains_title u)))
  · exact pyContains_append_left (pyContains_append_right
      (pyContains_pyJoin (List.mem_map_of_mem updateCmdLine hu) (updateCmdLine_contains_cmd u)))

theorem multiMatchDeleteMsg_contains {x : String} {ms : List Task} {u : Task} (hu : u ∈ ms) :
    pyContains (multiMatchDeleteMsg x ms) u.title = true ∧
    pyContains (multiMatchDeleteMsg x ms) ("delete " ++ u.title) = true := by
  unfold multiMatchDeleteMsg
  constructor
  · exact pyContains_append_left (pyContains_append_right
      (pyContains_pyJoin (List.mem_map_of_mem deleteCmdLine hu) (deleteCmdLine_contains_title u)))
  · exact pyContains_append_left (pyContains_append_right
      (pyContains_pyJoin (List.mem_map_of_mem deleteCmdLine hu) (deleteCmdLine_contains_cmd u)))

theorem noMatchUpdateMsg_contains_title {x : String} {l : List Task} {u : Task}
    (hu : u ∈ l.take 5) :
    pyContains (noMatchUpdateMsg x l) u.title = true := by
  unfold noMatchUpdateMsg
  exact pyContains_append_right
    (pyContains_pyJoin (List.mem_map_of_mem (fun t => pyQuote t.title) hu) pyContains_pyQuote)

/-- C3: for every identifier that is not a well-formed id and every
candidate list, both tools lower-case and strip the identifier and
filter the candidates to those whose lower-cased title contains it as a
substring, preserving the original relative order (the matches form a
sublist of the pool); zero matches give a `success=false` not-found
result with the database untouched, exactly one match resolves to that
task and the operation proceeds with it, and two or more matches give a
`success=false` result whose message enumerates every matching task
together with a copy-pasteable retry command. -/
theorem keyword_resolution_theorem (up iso : String → Option Nat) (db : DB)
    (uid now : Nat) (a : UpdateArgs) (hup : up a.task_id = none) :
    (keywordMatches a.task_id (get_user_tasks db uid none none 0 20).1 =
      ((get_user_tasks db uid none none 0 20).1).filter
        (fun t => pyContains (pyLower t.title) (pyStrip (pyLower a.task_id))) ∧
     (keywordMatches a.task_id (get_user_tasks db uid none none 0 20).1).Sublist
        ((get_user_tasks db uid none none 0 20).1)) ∧
    (keywordMatches a.task_id (get_user_tasks db uid none none 0 20).1 = [] →
      (update_task_tool up iso db uid now a).1.success = false ∧
      (update_task_tool up iso db uid now a).2 = db ∧
      (delete_task_tool up db uid a.task_id).1.success = false ∧
      (delete_task_tool up db uid a.task_id).2 = db) ∧
    (∀ t, keywordMatches a.task_id (get_user_tasks db uid none none 0 20).1 = [t] →
      update_task_tool up iso db uid now a =
        exceptionGuard "Failed to update task: " db (updateTaskApply iso db uid now a t.id) ∧
      delete_task_tool up db uid a.task_id =
        exceptionGuard "Failed to delete task: " db
          (match delete_task_service db t.id uid with
           | .error e => .error e
           | .ok db2 =>
             .ok ({ success := true,
                    message := "Task " ++ pyQuote t.title ++ " deleted successfully.",
                    task_id := some t.id, task_title := some t.title }, db2))) ∧
    (∀ t1 t2 ts, keywordMatches a.task_id (get_user_tasks db uid none none 0 20).1
        = t1 :: t2 :: ts →
      update_task_tool up iso db uid now a =
        ({ success := false, message := multiMatchUpdateMsg a.task_id (t1 :: t2 :: ts) }, db) ∧
      delete_task_tool up db uid a.task_id =
        ({ success := false, message := multiMatchDeleteMsg a.task_id (t1 :: t2 :: ts) }, db) ∧
      (∀ u ∈ t1 :: t2 :: ts,
        pyContains (multiMatchUpdateMsg a.task_id (t1 :: t2 :: ts)) u.title = true ∧
        pyContains (multiMatchUpdateMsg a.task_id (t1 :: t2 :: ts)) ("update " ++ u.title) = true ∧
        pyContains (multiMatchDeleteMsg a.task_id (t1 :: t2 :: ts)) u.title = true ∧
        pyContains (multiMatchDeleteMsg a.task_id (t1 :: t2 :: ts)) ("delete " ++ u.title) = true)) := by
  refine ⟨⟨rfl, List.filter_sublist _⟩, ?_, ?_, ?_⟩
  · intro hk
    by_cases he : ((get_user_tasks db uid none none 0 20).1).isEmpty = true
    · rw [update_tool_keyword_empty_pool hup he, delete_tool_keyword_empty_pool hup he]
      exact ⟨rfl, rfl, rfl, rfl⟩
    · rw [update_tool_keyword_nomatch hup (Bool.eq_false_iff.mpr he) hk,
          delete_tool_keyword_nomatch hup (Bool.eq_false_iff.mpr he) hk]
      exact ⟨rfl, rfl, rfl, rfl⟩
  · intro t hk
    exact ⟨update_tool_keyword_single hup hk, delete_tool_keyword_single hup hk⟩
  · intro t1 t2 ts hk
    refine ⟨update_tool_keyword_multi hup hk, delete_tool_keyword_multi hup hk, ?_⟩
    intro u hu
    rcases multiMatchUpdateMsg_contains (x := a.task_id) hu with ⟨c1, c2⟩
    rcases multiMatchDeleteMsg_contains (x := a.task_id) hu with ⟨c3, c4⟩
    exact ⟨c1, c2, c3, c4⟩

/-- Closed instance of `keyword_resolution_theorem`, on the spec's
two-task example: "bread" matches nothing, "buy" matches both tasks
(each listed in the message with its retry command), "milk" matches
exactly the milk task and the update proceeds with its id. -/
theorem keyword_resolution_witness :
    (update_task_tool uuidParseNone isoNone dbPair 7 5 { task_id := "bread" }).1.success = false ∧
    update_task_tool uuidParseNone isoNone dbPair 7 5 { task_id := "buy" } =
      ({ success := false, message := multiMatchUpdateMsg "buy" [taskMilk2, taskEggs] }, dbPair) ∧
    pyContains (multiMatchUpdateMsg "buy" [taskMilk2, taskEggs]) "Buy eggs" = true ∧
    update_task_tool uuidParseNone isoNone dbPair 7 5 { task_id := "milk" } =
      exceptionGuard "Failed to update task: " dbPair
        (updateTaskApply isoNone dbPair 7 5 { task_id := "milk" } taskMilk2.id) := by
  have hbread := keyword_resolution_theorem uuidParseNone isoNone dbPair 7 5
    { task_id := "bread" } (by decide)
  have hbuy := keyword_resolution_theorem uuidParseNone isoNone dbPair 7 5
    { task_id := "buy" } (by decide)
  have hmilk := keyword_resolution_theorem uuidParseNone isoNone dbPair 7 5
    { task_id := "milk" } (by decide)
  refine ⟨(hbread.2.1 (by decide)).1, (hbuy.2.2.2 taskMilk2 taskEggs [] (by decide)).1, ?_, ?_⟩
  · exact ((hbuy.2.2.2 taskMilk2 taskEggs [] (by decide)).2.2 taskEggs (by decide)).1
  · exact (hmilk.2.2.1 taskMilk2 (by decide)).1

/-- C4: for every identifier string the id parser accepts, both tools
perform an exact id lookup only: the outcome is entirely determined by
`get_task` on the parsed id (a lookup/permission failure surfaces as
the caught-exception result, a hit proceeds with exactly that id), and
keyword/substring matching over titles is never consulted — even when
the identifier string is a substring of some task title. -/
theorem uuid_exact_lookup_theorem (up iso : String → Option Nat) (db : DB)
    (uid now : Nat) (a : UpdateArgs) (tid : Nat) (hup : up a.task_id = some tid) :
    (∀ e, get_task db tid uid = .error e →
      update_task_tool up iso db uid now a =
        ({ success := false, message := "Failed to update task: " ++ e }, db) ∧
      delete_task_tool up db uid a.task_id =
        ({ success := false, message := "Failed to delete task: " ++ e }, db)) ∧
    (∀ t, get_task db tid uid = .ok t →
      update_task_tool up iso db uid now a =
        exceptionGuard "Failed to update task: " db (updateTaskApply iso db uid now a tid) ∧
      delete_task_tool up db uid a.task_id =
        exceptionGuard "Failed to delete task: " db
          (match delete_task_service db tid uid with
           | .error e => .error e
           | .ok db2 =>
             .ok ({ success := true,
                    message := "Task " ++ pyQuote t.title ++ " deleted successfully.",
                    task_id := some tid, task_title := some t.title }, db2))) := by
  constructor
  · intro e hg
    constructor
    · unfold update_task_tool update_task_tool_run
      rw [hup]
      dsimp only
      rw [hg]
      rfl
    · unfold delete_task_tool delete_task_tool_run
      rw [hup]
      dsimp only
      rw [hg]
      rfl
  · intro t hg
    constructor
    · unfold update_task_tool update_task_tool_run
      rw [hup]
      dsimp only
      rw [hg]
    · unfold delete_task_tool delete_task_tool_run
      rw [hup]
      dsimp only
      rw [hg]

/-- Closed instance of `uuid_exact_lookup_theorem`: a valid id "1"
deletes exactly task 1 of the pair database; and for a parser under
which "milk" is a well-formed id naming the absent task 99, the delete
fails with the caught not-found error instead of falling back to
matching the title "Buy milk" — even though "milk" is a substring of
that lower-cased title. -/
theorem uuid_exact_lookup_witness :
    delete_task_tool uuidParseDigits dbPair 7 "1" =
      ({ success := true, message := "Task " ++ pyQuote "Buy milk" ++ " deleted successfully.",
         task_id := some 1, task_title := some "Buy milk" }, { tasks := [taskEggs] }) ∧
    delete_task_tool uuidParseMilk dbMilk 7 "milk" =
      ({ success := false, message := "Failed to delete task: Task not found" }, dbMilk) ∧
    pyContains (pyLower milkTask.title) "milk" = true := by
  have h1 := uuid_exact_lookup_theorem uuidParseDigits isoNone dbPair 7 5
    { task_id := "1" } 1 (by decide)
  have h2 := uuid_exact_lookup_theorem uuidParseMilk isoNone dbMilk 7 5
    { task_id := "milk" } 99 (by decide)
  refine ⟨?_, ?_, by decide⟩
  · rw [(h1.2 taskMilk2 rfl).2]
    decide
  · exact (h2.1 "Task not found" rfl).2

/-- C7 counterexample: `delete_task`'s zero-match message (over the
nonempty single-task pool) does not list the available task titles at
all — it only asks for a more specific name — contradicting the claim
that both operations include the capped titles hint. -/
theorem notfound_hint_counterexample :
    delete_task_tool uuidParseNone dbMilk 7 "bread" =
      ({ success := false,
         message := "No task found matching \x27bread\x27. Try being more specific or provide the exact task name." },
       dbMilk) ∧
    pyContains
      "No task found matching \x27bread\x27. Try being more specific or provide the exact task name."
      "Buy milk" = false :=
  ⟨by decide, by decide⟩

/-- C7 as amended: when keyword resolution finds zero matches over a
non-empty candidate pool, the update tool returns a `success=false`
message stating that no task matched and listing the available task
titles as a hint, capped at 5 titles; the delete tool also returns a
`success=false` no-match message, but it contains no titles hint — it
only asks the caller to be more specific or give the exact name. -/
theorem notfound_hint_amended (up iso : String → Option Nat) (db : DB)
    (uid now : Nat) (a : UpdateArgs) (hup : up a.task_id = none)
    (hne : ((get_user_tasks db uid none none 0 20).1).isEmpty = false)
    (hk : keywordMatches a.task_id (get_user_tasks db uid none none 0 20).1 = []) :
    update_task_tool up iso db uid now a =
      ({ success := false,
         message := noMatchUpdateMsg a.task_id (get_user_tasks db uid none none 0 20).1 }, db) ∧
    noMatchUpdateMsg a.task_id (get_user_tasks db uid none none 0 20).1 =
      "No task found matching " ++ pyQuote a.task_id ++ ". Available tasks: " ++
        pyJoin ", " ((((get_user_tasks db uid none none 0 20).1).take 5).map
          (fun t => pyQuote t.title)) ∧
    (∀ t ∈ ((get_user_tasks db uid none none 0 20).1).take 5,
      pyContains (noMatchUpdateMsg a.task_id (get_user_tasks db uid none none 0 20).1)
        t.title = true) ∧
    delete_task_tool up db uid a.task_id =
      ({ success := false,
         message := "No task found matching " ++ pyQuote a.task_id ++
           ". Try being more specific or provide the exact task name." }, db) := by
  refine ⟨update_tool_keyword_nomatch hup hne hk, rfl, ?_,
    delete_tool_keyword_nomatch hup hne hk⟩
  intro t ht
  exact noMatchUpdateMsg_contains_title ht

/-- Closed instance of `notfound_hint_amended`: "bread" matches neither
task; the update message lists both titles, the delete message is the
fixed specificity prompt. -/
theorem notfound_hint_amended_witness :
    update_task_tool uuidParseNone isoNone dbPair 7 5 { task_id := "bread" } =
      ({ success := false,
         message := noMatchUpdateMsg "bread" (get_user_tasks dbPair 7 none none 0 20).1 },
       dbPair) ∧
    pyContains (noMatchUpdateMsg "bread" (get_user_tasks dbPair 7 none none 0 20).1)
      "Buy eggs" = true ∧
    delete_task_tool uuidParseNone dbPair 7 "bread" =
      ({ success := false,
         message := "No task found matching " ++ pyQuote "bread" ++
           ". Try being more specific or provide the exact task name." }, dbPair) := by
  have h := notfound_hint_amended uuidParseNone isoNone dbPair 7 5 { task_id := "bread" }
    (by decide) (by decide) (by decide)
  exact ⟨h.1, h.2.2.1 taskEggs (by decide), h.2.2.2⟩

/-- C8: the service `update_task` enforces no status transition graph —
any target status is accepted whatever the current one — and an update
that sets the status to `completed` sets the completion timestamp; a
status-only update changes nothing else on the task row (of the spec's
task model: id, owner, title, description, priority, deadline, creation
time all unchanged; the bookkeeping column `updated_at`, not part of
the spec's task model, is refreshed on every update). -/
theorem status_transition_theorem (db : DB) (tid uid now : Nat) (t : Task) (s : TaskStatus)
    (hfind : db.tasks.find? (fun x => x.id == tid) = some t)
    (howner : t.ownerId = uid) :
    ∃ t2, update_task_service db tid uid { status := some s } now =
        .ok (t2, { db with tasks := replaceFirst (fun x => x.id == tid) t2 db.tasks }) ∧
      t2.status = s ∧
      (s = TaskStatus.completed → t2.completedAt = some now) ∧
      (s ≠ TaskStatus.completed → t2.completedAt = t.completedAt) ∧
      t2.title = t.title ∧ t2.description = t.description ∧ t2.priority = t.priority ∧
      t2.deadline = t.deadline ∧ t2.id = t.id ∧ t2.ownerId = t.ownerId ∧
      t2.createdAt = t.createdAt := by
  by_cases hs : s = TaskStatus.completed
  · subst hs
    refine ⟨{ t with status := TaskStatus.completed, completedAt := some now, updatedAt := now },
      ?_, rfl, fun _ => rfl, fun h => absurd rfl h, rfl, rfl, rfl, rfl, rfl, rfl, rfl⟩
    unfold update_task_service
    rw [hfind]
    dsimp only
    rw [if_neg (by simp [howner]), if_pos rfl]
    rfl
  · refine ⟨{ t with status := s, updatedAt := now }, ?_, rfl, fun h => absurd h hs,
      fun _ => rfl, rfl, rfl, rfl, rfl, rfl, rfl, rfl⟩
    unfold update_task_service
    rw [hfind]
    dsimp only
    rw [if_neg (by simp [howner]), if_neg (by simp [hs])]
    rfl

/-- Closed instance of `status_transition_theorem`. -/
theorem status_transition_witness :
    ∃ t2, update_task_service dbMilk 1 7 { status := some TaskStatus.completed } 5 =
        .ok (t2, { dbMilk with tasks := replaceFirst (fun x => x.id == 1) t2 dbMilk.tasks }) ∧
      t2.status = TaskStatus.completed ∧
      (TaskStatus.completed = TaskStatus.completed → t2.completedAt = some 5) ∧
      (TaskStatus.completed ≠ TaskStatus.completed → t2.completedAt = milkTask.completedAt) ∧
      t2.title = milkTask.title ∧ t2.description = milkTask.description ∧
      t2.priority = milkTask.priority ∧ t2.deadline = milkTask.deadline ∧
      t2.id = milkTask.id ∧ t2.ownerId = milkTask.ownerId ∧
      t2.createdAt = milkTask.createdAt :=
  status_transition_theorem dbMilk 1 7 5 milkTask TaskStatus.completed rfl rfl

/-- C9: both tools draw their keyword-resolution candidates from
`get_user_tasks` with its default pagination — at most the 20 most
recently created tasks of the owner.  If at least 20 of a user's tasks
are strictly newer than task `t`, then `t` is not in the candidate pool
and no keyword can ever match it there, regardless of its title. -/
theorem pagination_pool_theorem (db : DB) (uid : Nat) (t : Task)
    (hcount : 20 ≤ ((db.tasks.filter (fun u => u.ownerId == uid)).filter
        (fun u => decide (t.createdAt < u.createdAt))).length) :
    ((get_user_tasks db uid none none 0 20).1).length ≤ 20 ∧
    t ∉ (get_user_tasks db uid none none 0 20).1 ∧
    ∀ ident, t ∉ keywordMatches ident (get_user_tasks db uid none none 0 20).1 := by
  have hpool : (get_user_tasks db uid none none 0 20).1 =
      ((db.tasks.filter (fun u => u.ownerId == uid)).insertionSort createdDesc).take 20 := by
    simp [get_user_tasks]
  set own := db.tasks.filter (fun u => u.ownerId == uid) with hown_def
  set sorted := own.insertionSort createdDesc with hsorted_def
  have hnotmem : t ∉ (get_user_tasks db uid none none 0 20).1 := by
    rw [hpool]
    intro hmem
    rcases List.mem_iff_getElem.mp hmem with ⟨i, hi, hgi⟩
    have hi20 : i < 20 := Nat.lt_of_lt_of_le hi (List.length_take_le 20 sorted)
    have hilen : i < sorted.length := Nat.lt_of_lt_of_le hi (List.length_take_le' 20 sorted)
    rw [List.getElem_take] at hgi
    have hsorted : List.Pairwise createdDesc sorted :=
      List.sorted_insertionSort createdDesc own
    have hafter : ∀ x ∈ sorted.drop i, ¬ (t.createdAt < x.createdAt) := by
      intro x hx
      rcases List.mem_iff_getElem.mp hx with ⟨j, hj, hxj⟩
      have hjlen : i + j < sorted.length := by
        rw [List.length_drop] at hj
        omega
      rw [List.getElem_drop] at hxj
      cases Nat.eq_zero_or_pos j with
      | inl hj0 =>
        subst hj0
        have hxt : x = t := by rw [← hxj]; exact hgi
        intro hlt
        rw [hxt] at hlt
        exact lt_irrefl _ hlt
      | inr hjpos =>
        have hrel := List.pairwise_iff_getElem.mp hsorted i (i + j) hilen hjlen (by omega)
        rw [hgi, hxj] at hrel
        exact fun hlt => (Nat.not_le.mpr hlt) hrel
    have hfilter_drop :
        (sorted.drop i).filter (fun u => decide (t.createdAt < u.createdAt)) = [] := by
      apply List.filter_eq_nil_iff.mpr
      intro x hx
      simpa using hafter x hx
    have hsplit : sorted.filter (fun u => decide (t.createdAt < u.createdAt)) =
        (sorted.take i).filter (fun u => decide (t.createdAt < u.createdAt)) := by
      conv_lhs => rw [← List.take_append_drop i sorted]
      rw [List.filter_append, hfilter_drop, List.append_nil]
    have hlen1 : (sorted.filter (fun u => decide (t.createdAt < u.createdAt))).length ≤ i := by
      rw [hsplit]
      calc ((sorted.take i).filter (fun u => decide (t.createdAt < u.createdAt))).length
          ≤ (sorted.take i).length := List.length_filter_le _ _
        _ ≤ i := List.length_take_le i sorted
    have hperm : (own.filter (fun u => decide (t.createdAt < u.createdAt))).length =
        (sorted.filter (fun u => decide (t.createdAt < u.createdAt))).length :=
      (((List.perm_insertionSort createdDesc own).filter
        (fun u => decide (t.createdAt < u.createdAt))).length_eq).symm
    omega
  refine ⟨?_, hnotmem, ?_⟩
  · rw [hpool]
    exact List.length_take_le 20 sorted
  · intro ident hmem2
    exact hnotmem (List.mem_of_mem_filter hmem2)

/-- Closed instance of `pagination_pool_theorem`: with 21 tasks, the
oldest one is absent from the candidate pool and unmatchable by
keyword, even though its title is the unique match for "milk" over the
full collection. -/
theorem pagination_pool_witness :
    bigTask 1 ∉ (get_user_tasks dbBig 7 none none 0 20).1 ∧
    bigTask 1 ∉ keywordMatches "milk" (get_user_tasks dbBig 7 none none 0 20).1 ∧
    ((get_user_tasks dbBig 7 none none 0 20).1).length ≤ 20 ∧
    keywordMatches "milk" dbBig.tasks = [bigTask 1] := by
  have h := pagination_pool_theorem dbBig 7 (bigTask 1) (by decide)
  exact ⟨h.2.1, h.2.2 "milk", h.1, by decide⟩

/-- C10: `add_task` validates the requested priority against the
priority enum but never hands it to the persistence layer — the
service `create_task` has no priority parameter, so the created row
always carries the model default `medium` — while the success message
still reports the task as created with the requested priority.  (An
out-of-enum request fails up front instead.) -/
theorem add_task_priority_theorem (iso : String → Option Nat) (db : DB)
    (uid now newId : Nat) (title : String) (description : Option String)
    (deadline : Option String) (dl : Option Nat) (ps : String) (pr : TaskPriority)
    (hd : (if pyTruthy deadline = true then (iso (replaceZ (deadline.getD ""))).map some
           else some none) = some dl)
    (hp : TaskPriority.ofString ps = some pr) :
    add_task_tool iso db uid now newId title description (some ps) deadline =
      ({ success := true,
         message := "Task " ++ pyQuote title ++ " created successfully with " ++ ps ++ " priority.",
         task_id := some newId, task_title := some title },
       (create_task_service db uid title description dl newId now).2) ∧
    (create_task_service db uid title description dl newId now).1.priority
      = TaskPriority.medium ∧
    pyContains ("Task " ++ pyQuote title ++ " created successfully with " ++ ps ++ " priority.")
      ps = true ∧
    (∀ ps2, TaskPriority.ofString ps2 = none →
      add_task_tool iso db uid now newId title description (some ps2) deadline =
        ({ success := false,
           message := "Invalid priority. Must be: low, medium, high, or urgent" }, db)) := by
  refine ⟨?_, rfl, ?_, ?_⟩
  · unfold add_task_tool
    rw [hd]
    dsimp only
    rw [hp]
    rfl
  · exact pyContains_append_left (pyContains_append_right pyContains_refl)
  · intro ps2 hp2
    unfold add_task_tool
    rw [hd]
    dsimp only
    rw [hp2]

/-- Closed instance of `add_task_priority_theorem`: requesting "high"
stores `medium` but reports "high". -/
theorem add_task_priority_witness :
    add_task_tool isoNone dbMilk 7 5 99 "Ship it" none (some "high") none =
      ({ success := true,
         message := "Task " ++ pyQuote "Ship it" ++ " created successfully with " ++ "high"
           ++ " priority.",
         task_id := some 99, task_title := some "Ship it" },
       (create_task_service dbMilk 7 "Ship it" none none 99 5).2) ∧
    (create_task_service dbMilk 7 "Ship it" none none 99 5).1.priority = TaskPriority.medium := by
  have h := add_task_priority_theorem isoNone dbMilk 7 5 99 "Ship it" none none none
    "high" TaskPriority.high rfl rfl
  exact ⟨h.1, h.2.1⟩

end Todo
